import Mathlib

/-!
Verification of the `watch-tonight` backend (`src/app.py`): a single-file
Flask application exposing `GET /check` and `POST /api/execute`, which
forwards a free-text query to an external generation provider through a
fixed prompt template.

The embedding below translates `app.py` line by line:
  * module-level startup (lines 10-32) becomes `startup` / `initModel`;
  * `execute_watch_tonight` (lines 43-80) becomes `execute_watch_tonight`,
    with the prompt f-string transcribed literally into `promptHead` /
    `promptTail`;
  * the `/check` handler (lines 84-101) becomes `check`;
  * the `/api/execute` handler (lines 105-135) becomes `execute`.

Request bodies are modelled by `RawBody` (absent / unparseable / parsed
JSON) with `getJsonSilent` playing the role of Flask's
`request.get_json(silent=True)`. Python truthiness of the parsed body
(the `if not data:` test on line 113) is `pyFalsy`. The external provider
(`model.generate_content`, line 79) is a function parameter producing a
`ProviderOutcome`: generated text, a raised `APIError` with a detail
string, or some other raised exception. Exceptions are values of
`PyError`, and traces record whether `execute_watch_tonight` was invoked,
whether the provider was invoked, and whether the `raise` guarding the
uninitialised model (line 48) executed.
-/

namespace WatchTonight

/-- A parsed JSON value, as produced by Flask's request parsing. Numbers are
modelled as integers; no claim touches fractional numbers. -/
inductive Json where
  | null
  | bool (b : Bool)
  | num (n : Int)
  | str (s : String)
  | arr (elems : List Json)
  | obj (members : List (String × Json))

/-- Python truthiness of a parsed JSON value: `None`, `False`, `0`, `""`,
`[]` and the empty dict are falsy, everything else truthy. This is the
test `if not data:` applies to the parsed body on line 113 of `app.py`. -/
def Json.truthy : Json → Bool
  | .null => false
  | .bool b => b
  | .num n => n != 0
  | .str s => s != ""
  | .arr elems => !elems.isEmpty
  | .obj members => !members.isEmpty

/-- Whether the value is a JSON/Python string (only strings have `.strip()`). -/
def Json.isStr : Json → Bool
  | .str _ => true
  | _ => false

/-- `data.get(key, default)` on a Python dict, line 117 of `app.py`. -/
def Json.getD (members : List (String × Json)) (key : String) (dflt : Json) : Json :=
  match members.lookup key with
  | some v => v
  | none => dflt

/-- The raw HTTP request body before Flask parses it: absent, present but not
valid JSON, or valid JSON that parses to the given value. -/
inductive RawBody where
  | absent
  | invalid (text : String)
  | json (value : Json)

/-- Flask's `request.get_json(silent=True)` (line 112): `None` when the body
is absent or not parseable as JSON, otherwise the parsed value. -/
def getJsonSilent : RawBody → Option Json
  | .absent => none
  | .invalid _ => none
  | .json v => some v

/-- The `if not data:` test on line 113: true when `get_json` returned `None`
or the parsed value is falsy (such as the empty object `{}`). -/
def pyFalsy : Option Json → Bool
  | none => true
  | some v => !v.truthy

/-- A Python exception as far as the handlers can observe it: the provider's
`APIError` (caught by the first `except` clause on line 126), or any other
exception carrying a message (caught by `except Exception` on line 132). -/
inductive PyError where
  | apiError (detail : String)
  | exception (message : String)
  | attributeError (message : String)

/-- One outcome of the outbound call `model.generate_content(...)` on line 79:
it returns generated text, raises an `APIError`, or raises some other
exception. -/
inductive ProviderOutcome where
  | ok (text : String)
  | apiError (detail : String)
  | otherError (detail : String)

/-- The constructed `genai.GenerativeModel` client handle (line 25). The only
observable attribute is the model identifier it was bound to. -/
structure GenModel where
  name : String

/-- An HTTP response produced with `jsonify(...), status`: a status code and
a JSON body. JSON objects keep the key order of the Python dict literals. -/
structure Response where
  status : Nat
  body : Json

/-- What a route handler does with a request: return a response, or let an
exception escape to the framework (possible on line 117 when the truthy body
is not a dict, since that line sits outside the `try` block). -/
inductive ExecOutcome where
  | response (r : Response)
  | uncaught (e : PyError)

/-- An execution trace of the `/api/execute` handler: its outcome plus flags
recording whether `execute_watch_tonight` was entered, whether the outbound
provider call was made, and whether the `raise` on line 48 executed. -/
structure ExecTrace where
  outcome : ExecOutcome
  watchCalled : Bool
  providerCalled : Bool
  raisedInitCheck : Bool

/-- `MODEL_TO_USE = 'gemini-2.5-flash'`, line 13 of `app.py`. -/
def MODEL_TO_USE : String := "gemini-2.5-flash"

/-- The placeholder substituted into the prompt when the query is blank
(line 53 of `app.py`). -/
def noConstraintsMsg : String := "No extra constraints provided."

/-- The prompt f-string (lines 50-77) up to the interpolated user context. -/
def promptHead : String :=
  "\nYou are my entertainment assistant. Your mission: help me find what to watch tonight.\n\nUSER CONTEXT: "

/-- The prompt f-string (lines 50-77) after the interpolated user context. -/
def promptTail : String :=
  "\n\nTASK:\n1) SEARCH\n• Browse current trends (last 7 days) on Netflix, Apple TV+, Paramount+, Disney+, Prime Video, Zee5, Airtel XStream using Google Search.\n• Identify the most popular or freshly released movies and series as well as best rated.\n• Make sure they’re available in the user’s country (assume user is in India unless specified).\n• Only suggest content with good reviews and a significant number of ratings (IMDb, Rotten Tomatoes, press or audience reviews).\n\n2) CLASSIFY THE RECOMMENDATIONS\nCreate 3 sections, with 2–3 suggestions in each:\nA. Easy to follow → light shows/movies, comedies, feel-good content.\nB. To savor → dramas, thrillers, cinematic works, well-crafted stories.\nC. Adventure → action, sci-fi, fantasy, epics.\n\nFOR EACH RECOMMENDATION:\n• Title (year)\n• Rating (e.g., IMDb or Rotten Tomatoes)\n• Platform / Indicate if it’s a new release or trending\n• Runtime (movie) or number of available episodes (series)\n• Genre\n• 2–3 sentence pitch\n\nEnd with an engaging phrase like: “Want further suggestions in another genre or mood?”\n"

/-- Python's `str.strip()` with no argument: drop whitespace from both ends
of the character sequence. -/
def pyStrip (s : String) : String :=
  String.mk ((((s.data.dropWhile Char.isWhitespace).reverse.dropWhile
      Char.isWhitespace)).reverse)

/-- Assembly of the prompt (lines 50-77): the user context is the query when
`query.strip()` is truthy (nonempty after stripping), otherwise the
placeholder. -/
def buildPrompt (query : String) : String :=
  promptHead ++ (if pyStrip query != "" then query else noConstraintsMsg) ++ promptTail

/-- Result of running `execute_watch_tonight`: the returned text or the
raised exception, plus the trace flags for the provider call and the
line-48 `raise`. -/
structure WatchResult where
  result : Except PyError String
  providerCalled : Bool
  raisedInitCheck : Bool

/-- `execute_watch_tonight` (lines 43-80): raise when the module-level
`model` is unset; otherwise build the prompt from the query — where
`query.strip()` on line 53 raises `AttributeError` if the query value is not
a string — and make the single outbound provider call, returning its text or
propagating what it raised. -/
def execute_watch_tonight (model : Option GenModel) (query : Json)
    (provider : String → ProviderOutcome) : WatchResult :=
  if model.isNone then
    { result := .error (.exception
        "AI model failed to initialize due to missing or invalid API key.")
      providerCalled := false
      raisedInitCheck := true }
  else
    match query with
    | .str s =>
      match provider (buildPrompt s) with
      | .ok text => { result := .ok text, providerCalled := true, raisedInitCheck := false }
      | .apiError d => { result := .error (.apiError d), providerCalled := true, raisedInitCheck := false }
      | .otherError d => { result := .error (.exception d), providerCalled := true, raisedInitCheck := false }
    | _ =>
      { result := .error (.attributeError "object has no attribute strip")
        providerCalled := false
        raisedInitCheck := false }

/-- The module-level state of `app.py` after the import-time code ran:
`API_KEY` (line 10), `MODEL_TO_USE` (line 13) and `model` (lines 20-32). -/
structure AppState where
  API_KEY : Option String
  MODEL_TO_USE : String
  model : Option GenModel

/-- Lines 20-32: the client handle is constructed only when the credential
is truthy (present and non-empty); a construction failure is caught and
leaves the handle unset. `construct` stands for
`genai.configure(...)` followed by `genai.GenerativeModel(name)`, which may
raise (modelled as `Except.error`). -/
def initModel (apiKey : Option String)
    (construct : String → String → Except String GenModel) : Option GenModel :=
  match apiKey with
  | none => none
  | some k =>
    if k = "" then none
    else
      match construct k MODEL_TO_USE with
      | .ok m => some m
      | .error _ => none

/-- The import-time code of `app.py` (lines 10-32): read the credential from
the environment and attempt to construct the client handle. -/
def startup (env : Option String)
    (construct : String → String → Except String GenModel) : AppState :=
  { API_KEY := env, MODEL_TO_USE := MODEL_TO_USE, model := initModel env construct }

/-- The `/check` handler (lines 84-101): 503 with the degraded message when
the client handle is unset, 200 otherwise; the body always carries the
configured model identifier. -/
def check (st : AppState) : Response :=
  if st.model.isNone then
    { status := 503
      body := .obj [("status", .str "error"),
                    ("message", .str "backend is running, but AI model failed to initialize."),
                    ("model", .str st.MODEL_TO_USE)] }
  else
    { status := 200
      body := .obj [("status", .str "ok"),
                    ("message", .str "backend is running"),
                    ("model", .str st.MODEL_TO_USE)] }

/-- The `/api/execute` handler (lines 105-135), line by line: fail fast with
503 when the client handle is unset; parse the body silently and answer 400
when the parsed value is falsy (`if not data:`); read the optional `query`
field (a non-dict truthy body makes `data.get` raise outside the `try`, so
that exception escapes the handler); then run `execute_watch_tonight` inside
the `try`, mapping success to 200, `APIError` to 503 with the error detail,
and every other exception to the fixed generic 500. -/
def execute (st : AppState) (raw : RawBody)
    (provider : String → ProviderOutcome) : ExecTrace :=
  if st.model.isNone then
    { outcome := .response
        { status := 503
          body := .obj [("error", .str "AI service not initialized. Check API key configuration.")] }
      watchCalled := false, providerCalled := false, raisedInitCheck := false }
  else
    let data := getJsonSilent raw
    if pyFalsy data then
      { outcome := .response
          { status := 400, body := .obj [("error", .str "Invalid or missing JSON payload.")] }
        watchCalled := false, providerCalled := false, raisedInitCheck := false }
    else
      match data with
      | some (.obj members) =>
        let query := Json.getD members "query" (.str "")
        let w := execute_watch_tonight st.model query provider
        match w.result with
        | .ok text =>
          { outcome := .response
              { status := 200, body := .obj [("success", .bool true), ("result", .str text)] }
            watchCalled := true, providerCalled := w.providerCalled
            raisedInitCheck := w.raisedInitCheck }
        | .error (.apiError d) =>
          { outcome := .response
              { status := 503
                body := .obj [("error", .str ("AI Service Unavailable or request error: " ++ d))] }
            watchCalled := true, providerCalled := w.providerCalled
            raisedInitCheck := w.raisedInitCheck }
        | .error _ =>
          { outcome := .response
              { status := 500, body := .obj [("error", .str "An unexpected internal server error occurred.")] }
            watchCalled := true, providerCalled := w.providerCalled
            raisedInitCheck := w.raisedInitCheck }
      | _ =>
        { outcome := .uncaught (.attributeError "object has no attribute get")
          watchCalled := false, providerCalled := false, raisedInitCheck := false }

/-- An incoming HTTP request on one of the two routes. -/
inductive HttpRequest where
  | getCheck
  | postExecute (raw : RawBody)

/-- Dispatch of one request to its handler. The handlers read the module
state and never assign to it, so dispatch returns the state alongside the
trace; `/check` makes no outbound call and never enters
`execute_watch_tonight`. -/
def handleRequest (st : AppState) (provider : String → ProviderOutcome) :
    HttpRequest → AppState × ExecTrace
  | .getCheck =>
    (st, { outcome := .response (check st)
           watchCalled := false, providerCalled := false, raisedInitCheck := false })
  | .postExecute raw => (st, execute st raw provider)

end WatchTonight

namespace WatchTonight

/-- C1: the spec says a POST to `/api/execute` with body `{}` defaults the
query to the empty string and assembles the prompt with the placeholder
sentence. The code instead answers 400: `if not data:` on line 113 treats
the parsed empty object (a falsy Python dict) as a missing payload, so the
handler never reaches the query extraction. The prompt-assembly half of the
claim is real: on a blank query `buildPrompt` does embed the placeholder.
This theorem evaluates both facts. -/
theorem C1_empty_object_behavior (m : GenModel) (key : Option String)
    (provider : String → ProviderOutcome) :
    (execute ⟨key, MODEL_TO_USE, some m⟩ (.json (.obj [])) provider).outcome
      = .response ⟨400, .obj [("error", .str "Invalid or missing JSON payload.")]⟩
    ∧ (execute ⟨key, MODEL_TO_USE, some m⟩ (.json (.obj [])) provider).watchCalled = false
    ∧ buildPrompt "" = promptHead ++ noConstraintsMsg ++ promptTail := by
  refine ⟨rfl, rfl, ?_⟩
  rfl

/-- C2: with the credential absent, startup leaves the client handle unset;
then `GET /check` answers 503, `POST /api/execute` answers 503 with the
fixed initialization error body, and no outbound provider call is made. -/
theorem C2_missing_credential_degraded
    (construct : String → String → Except String GenModel)
    (raw : RawBody) (provider : String → ProviderOutcome) :
    (startup none construct).model = none
    ∧ (check (startup none construct)).status = 503
    ∧ (execute (startup none construct) raw provider).outcome
        = .response ⟨503, .obj [("error", .str "AI service not initialized. Check API key configuration.")]⟩
    ∧ (execute (startup none construct) raw provider).providerCalled = false := by
  exact ⟨rfl, rfl, rfl, rfl⟩

/-- C3: with the client initialized, body `{"query":"comedies"}` and a
provider returning text `X`, the handler answers 200 with body exactly
`{"success": true, "result": X}`. -/
theorem C3_success_response (m : GenModel) (key : Option String) (X : String) :
    (execute ⟨key, MODEL_TO_USE, some m⟩ (.json (.obj [("query", .str "comedies")]))
        (fun _ => .ok X)).outcome
      = .response ⟨200, .obj [("success", .bool true), ("result", .str X)]⟩ := by
  rfl

/-- C4: when the provider call raises an `APIError` with detail `D`, the
handler answers 503 and the error string is the fixed prefix followed by
`D`, so it contains the provider's error detail. -/
theorem C4_api_error_maps_to_503 (m : GenModel) (key : Option String) (q D : String) :
    (execute ⟨key, MODEL_TO_USE, some m⟩ (.json (.obj [("query", .str q)]))
        (fun _ => .apiError D)).outcome
      = .response ⟨503, .obj [("error",
          .str ("AI Service Unavailable or request error: " ++ D))]⟩
    ∧ ∃ pre, "AI Service Unavailable or request error: " ++ D = pre ++ D := by
  exact ⟨rfl, "AI Service Unavailable or request error: ", rfl⟩

/-- C6: with the client initialized, an absent body or a body that is not
parseable as JSON makes the handler answer 400 with the fixed invalid
payload body. -/
theorem C6_unparseable_or_absent_400 (m : GenModel) (key : Option String)
    (s : String) (provider : String → ProviderOutcome) :
    (execute ⟨key, MODEL_TO_USE, some m⟩ .absent provider).outcome
      = .response ⟨400, .obj [("error", .str "Invalid or missing JSON payload.")]⟩
    ∧ (execute ⟨key, MODEL_TO_USE, some m⟩ (.invalid s) provider).outcome
      = .response ⟨400, .obj [("error", .str "Invalid or missing JSON payload.")]⟩ := by
  exact ⟨rfl, rfl⟩

/-- C7: `GET /check` answers 200 with status `ok` and the running message
when the client handle is set, 503 with status `error` and the degraded
message when it is not, and both bodies carry the configured model
identifier (which startup fixes to `MODEL_TO_USE`). -/
theorem C7_check_reports_state (key : Option String) (name : String) (m : GenModel)
    (env : Option String) (construct : String → String → Except String GenModel) :
    check ⟨key, name, some m⟩
      = ⟨200, .obj [("status", .str "ok"),
                    ("message", .str "backend is running"),
                    ("model", .str name)]⟩
    ∧ check ⟨key, name, none⟩
      = ⟨503, .obj [("status", .str "error"),
                    ("message", .str "backend is running, but AI model failed to initialize."),
                    ("model", .str name)]⟩
    ∧ (startup env construct).MODEL_TO_USE = MODEL_TO_USE := by
  exact ⟨rfl, rfl, rfl⟩

/-- C8: dispatching any request to either handler returns the module state
unchanged: the handlers read the configuration and the client handle but
never assign to them. -/
theorem C8_handlers_leave_state_unchanged (st : AppState)
    (provider : String → ProviderOutcome) (req : HttpRequest) :
    (handleRequest st provider req).1 = st := by
  cases req <;> rfl

/-- C9: with the client initialized and a truthy JSON object body whose
`query` field is not a string, the whitespace test `query.strip()` raises an
attribute error inside the `try` block, the broad `except Exception` maps it
to the generic 500 body, no provider call happens, and no 400 is produced. -/
theorem C9_nonstring_query_generic_500 (m : GenModel) (key : Option String)
    (provider : String → ProviderOutcome) (v : Json) (h : v.isStr = false) :
    (execute ⟨key, MODEL_TO_USE, some m⟩ (.json (.obj [("query", v)])) provider).outcome
      = .response ⟨500, .obj [("error", .str "An unexpected internal server error occurred.")]⟩
    ∧ (execute ⟨key, MODEL_TO_USE, some m⟩ (.json (.obj [("query", v)])) provider).providerCalled
      = false := by
  cases v with
  | str s => simp [Json.isStr] at h
  | null => exact ⟨rfl, rfl⟩
  | bool b => exact ⟨rfl, rfl⟩
  | num n => exact ⟨rfl, rfl⟩
  | arr elems => exact ⟨rfl, rfl⟩
  | obj members => exact ⟨rfl, rfl⟩

/-- C9 witness: the number `3` is not a string, and at that concrete query
value the handler answers the generic 500. -/
theorem C9_nonstring_query_generic_500_witness :
    (Json.num 3).isStr = false
    ∧ (execute ⟨some "k", MODEL_TO_USE, some ⟨MODEL_TO_USE⟩⟩
          (.json (.obj [("query", Json.num 3)])) (fun _ => .ok "X")).outcome
      = .response ⟨500, .obj [("error", .str "An unexpected internal server error occurred.")]⟩ :=
  ⟨rfl, (C9_nonstring_query_generic_500 ⟨MODEL_TO_USE⟩ (some "k")
      (fun _ => .ok "X") (Json.num 3) rfl).1⟩

/-- C10: with the client handle set, the `raise` guarding the uninitialized
model inside `execute_watch_tonight` never executes, whatever the query and
the provider do; and a request routed through `/api/execute` never enters
`execute_watch_tonight` when the handle is unset, since the handler answers
503 first. -/
theorem C10_init_raise_unreachable (m : GenModel) (q : Json)
    (provider : String → ProviderOutcome) (key : Option String) (name : String)
    (raw : RawBody) :
    (execute_watch_tonight (some m) q provider).raisedInitCheck = false
    ∧ (execute ⟨key, name, none⟩ raw provider).watchCalled = false := by
  refine ⟨?_, rfl⟩
  cases q with
  | str s =>
    rcases hp : provider (buildPrompt s) with t | d | d <;>
      simp [execute_watch_tonight, hp]
  | null => rfl
  | bool b => rfl
  | num n => rfl
  | arr elems => rfl
  | obj members => rfl

end WatchTonight
